import Mathlib

/-!
Verification of `src/Singleton/singleton.py`.

The repository holds one Python class:

  class Singleton:
      _instance = None

      def __new__(cls, *args, **kwargs):
          if not cls._instance:
              cls._instance = super(Singleton, cls).__new__(cls, *args, **kwargs)
          return cls._instance

  singleton1 = Singleton()
  singleton2 = Singleton()
  print(singleton1 is singleton2)

The shallow embedding below models the class-level `_instance` slot as an
explicit state, object references as allocation-ordered identifiers, the
Python truthiness test `not cls._instance`, and the external call
`super(Singleton, cls).__new__` as a constructor that either completes
(allocating a fresh object) or raises.  Arguments (`*args, **kwargs`) are
abstracted to a list of values; the claims never inspect their shape, only
compare argument sets for equality.
-/

/-- Construction arguments of one call, abstracting `*args, **kwargs`. -/
abbrev Args := List Nat

/-- A Python value as seen by the slot and the callers: `None`, or a
reference to an object identified by its allocation index. -/
inductive PyVal where
  | none : PyVal
  | obj (id : Nat) : PyVal
deriving DecidableEq, Repr

/-- Python truthiness as it applies to the values the `_instance` slot can
hold: `None` is falsy, and an instance of `Singleton` (a plain class with
no `__bool__` or `__len__`) is always truthy. -/
def truthy : PyVal → Bool
  | PyVal.none => false
  | PyVal.obj _ => true

/-- The only error the modelled code can surface: an exception raised by
the external `super().__new__` call, propagating out of `Singleton.__new__`. -/
inductive PyErr where
  | typeError : PyErr
deriving DecidableEq, Repr

/-- Equality of call results is decidable, so concrete runs can be
checked by evaluation. -/
instance exceptDecEq {e a : Type} [DecidableEq e] [DecidableEq a] :
    DecidableEq (Except e a) := fun x y =>
  match x, y with
  | Except.error u, Except.error v =>
      if h : u = v then Decidable.isTrue (by rw [h])
      else Decidable.isFalse (by intro hh; cases hh; exact h rfl)
  | Except.ok u, Except.ok v =>
      if h : u = v then Decidable.isTrue (by rw [h])
      else Decidable.isFalse (by intro hh; cases hh; exact h rfl)
  | Except.error _, Except.ok _ => Decidable.isFalse (by intro hh; cases hh)
  | Except.ok _, Except.error _ => Decidable.isFalse (by intro hh; cases hh)

/-- Process state relevant to the class: the class attribute
`Singleton._instance`, the allocator position used to mint fresh object
identities, and a ghost log of every completed `super().__new__` call,
recording the arguments it was constructed with, oldest first. -/
structure PyState where
  instanceSlot : PyVal
  nextId : Nat
  constructions : List Args
deriving DecidableEq, Repr

/-- State right after the class body ran: `_instance = None`, nothing
allocated, nothing constructed. -/
def initState : PyState :=
  { instanceSlot := PyVal.none, nextId := 0, constructions := [] }

namespace Singleton

/-- One call `Singleton(args)`, i.e. `Singleton.__new__(cls, *args, **kwargs)`.
`ctorFails` models the behaviour of the external `super(Singleton, cls).__new__`
on this call: when it returns `true` the constructor raises; otherwise the
runtime allocates a fresh object.  The function returns the state after the
call together with the returned reference or the propagated exception. -/
def new (ctorFails : Args → Bool) (args : Args) (s : PyState) :
    PyState × Except PyErr PyVal :=
  if truthy s.instanceSlot = false then
    if ctorFails args then
      (s, Except.error PyErr.typeError)
    else
      let s' : PyState :=
        { instanceSlot := PyVal.obj s.nextId
          nextId := s.nextId + 1
          constructions := s.constructions ++ [args] }
      (s', Except.ok s'.instanceSlot)
  else
    (s, Except.ok s.instanceSlot)

end Singleton

/-- Python reference identity `a is b`: in this model an object is its
allocation identifier, so identity is equality of values. -/
def pyIs (a b : PyVal) : Bool := a = b

/-- Run a sequence of calls to `Singleton(...)` from a given state.  Each
call carries the behaviour of the external constructor for that call and
the arguments passed.  Returns the final state and the result of every
call, in order. -/
def runCalls (s : PyState) : List ((Args → Bool) × Args) → PyState × List (Except PyErr PyVal)
  | [] => (s, [])
  | c :: cs =>
      let step := Singleton.new c.1 c.2 s
      let rest := runCalls step.1 cs
      (rest.1, step.2 :: rest.2)

/-- Number of calls in a run that overwrite the `_instance` slot. -/
def slotWrites (s : PyState) : List ((Args → Bool) × Args) → Nat
  | [] => 0
  | c :: cs =>
      let s' := (Singleton.new c.1 c.2 s).1
      (if s'.instanceSlot = s.instanceSlot then 0 else 1) + slotWrites s' cs

/-- States the process can be in after the class body ran, under any
sequence of calls to `Singleton(...)` with any external constructor
behaviour and any arguments. -/
inductive Reachable : PyState → Prop where
  | init : Reachable initState
  | step (ctorFails : Args → Bool) (args : Args) {s : PyState} :
      Reachable s → Reachable (Singleton.new ctorFails args s).1

/-- The module-level demonstration, executed on import:
`singleton1 = Singleton()`, `singleton2 = Singleton()`,
`print(singleton1 is singleton2)`.  Returns the state after the module
body and, unless an exception escaped, the two references together with
the boolean that the final statement prints. -/
def moduleDemo (ctorFails : Args → Bool) :
    PyState × Except PyErr (PyVal × PyVal × Bool) :=
  let c1 := Singleton.new ctorFails [] initState
  match c1.2 with
  | Except.error e => (c1.1, Except.error e)
  | Except.ok singleton1 =>
      let c2 := Singleton.new ctorFails [] c1.1
      match c2.2 with
      | Except.error e => (c2.1, Except.error e)
      | Except.ok singleton2 =>
          (c2.1, Except.ok (singleton1, singleton2, pyIs singleton1 singleton2))

/-- Concrete state after one successful call `Singleton()` on the fresh
state, used to instantiate theorems at a reachable post-construction state. -/
def demoState1 : PyState := (Singleton.new (fun _ => false) [] initState).1

/-- Concrete two-call schedule with a non-raising constructor: a first call
with no arguments, then a call passing the argument `7`. -/
def demoCalls : List ((Args → Bool) × Args) :=
  [(fun _ => false, []), (fun _ => false, [7])]

/-! ## Helper lemmas -/

/-- Truthiness of a slot value decides exactly whether it is `None`. -/
lemma truthy_eq_false_iff (v : PyVal) : truthy v = false ↔ v = PyVal.none := by
  cases v <;> simp [truthy]

/-- A call made while the slot is already truthy changes nothing and
returns the stored reference. -/
lemma new_of_truthy (c : Args → Bool) (a : Args) (s : PyState)
    (h : truthy s.instanceSlot = true) :
    Singleton.new c a s = (s, Except.ok s.instanceSlot) := by
  simp [Singleton.new, h]

/-- A call made while the slot is `None` and whose constructor raises
leaves the state unchanged and propagates the error. -/
lemma new_of_none_fail (c : Args → Bool) (a : Args) (s : PyState)
    (hs : s.instanceSlot = PyVal.none) (hc : c a = true) :
    Singleton.new c a s = (s, Except.error PyErr.typeError) := by
  simp [Singleton.new, hs, truthy, hc]

/-- A call made while the slot is `None` and whose constructor completes
allocates a fresh object, stores it in the slot, logs the construction
and returns the new reference. -/
lemma new_of_none_ok (c : Args → Bool) (a : Args) (s : PyState)
    (hs : s.instanceSlot = PyVal.none) (hc : c a = false) :
    Singleton.new c a s =
      ({ instanceSlot := PyVal.obj s.nextId
         nextId := s.nextId + 1
         constructions := s.constructions ++ [a] },
       Except.ok (PyVal.obj s.nextId)) := by
  simp [Singleton.new, hs, truthy, hc]

/-- Once the slot holds an object, a single further call leaves it there. -/
lemma slot_obj_step (c : Args → Bool) (a : Args) (s : PyState) (i : Nat)
    (h : s.instanceSlot = PyVal.obj i) :
    (Singleton.new c a s).1.instanceSlot = PyVal.obj i := by
  rw [new_of_truthy c a s (by rw [h]; rfl)]
  exact h

/-- Once the slot holds an object, any further run leaves it there. -/
lemma slot_obj_run (cs : List ((Args → Bool) × Args)) (s : PyState) (i : Nat)
    (h : s.instanceSlot = PyVal.obj i) :
    (runCalls s cs).1.instanceSlot = PyVal.obj i := by
  induction cs generalizing s with
  | nil => exact h
  | cons c cs ih =>
      simp only [runCalls]
      exact ih _ (slot_obj_step c.1 c.2 s i h)

/-- A successful call returns exactly the reference stored in the slot
after the call, and that reference is an object, never `None`. -/
lemma ok_eq_post_slot (c : Args → Bool) (a : Args) (s : PyState) (v : PyVal)
    (h : (Singleton.new c a s).2 = Except.ok v) :
    v = (Singleton.new c a s).1.instanceSlot ∧ ∃ k, v = PyVal.obj k := by
  cases hs : s.instanceSlot with
  | none =>
      cases hc : c a with
      | true => rw [new_of_none_fail c a s hs hc] at h; cases h
      | false =>
          rw [new_of_none_ok c a s hs hc] at h ⊢
          cases h
          exact ⟨rfl, s.nextId, rfl⟩
  | obj i =>
      rw [new_of_truthy c a s (by rw [hs]; rfl)] at h ⊢
      cases h
      exact ⟨rfl, by rw [hs]; exact ⟨i, rfl⟩⟩

/-- Core invariant of every reachable state: either nothing has been
constructed and the slot is `None`, or exactly one construction has
completed and the slot holds an object. -/
lemma reachable_invariant (s : PyState) (h : Reachable s) :
    (s.instanceSlot = PyVal.none ∧ s.constructions = []) ∨
      ∃ i a, s.instanceSlot = PyVal.obj i ∧ s.constructions = [a] := by
  induction h with
  | init => exact Or.inl ⟨rfl, rfl⟩
  | step c a hr ih =>
      rename_i s
      rcases ih with ⟨hs, hl⟩ | ⟨i, a0, hs, hl⟩
      · cases hc : c a with
        | true => rw [new_of_none_fail c a s hs hc]; exact Or.inl ⟨hs, hl⟩
        | false =>
            rw [new_of_none_ok c a s hs hc]
            exact Or.inr ⟨s.nextId, a, rfl, by rw [hl]; rfl⟩
      · rw [new_of_truthy c a s (by rw [hs]; rfl)]
        exact Or.inr ⟨i, a0, hs, hl⟩

/-- Every state along a run from a reachable state is reachable. -/
lemma reachable_run (cs : List ((Args → Bool) × Args)) (s : PyState)
    (h : Reachable s) : Reachable (runCalls s cs).1 := by
  induction cs generalizing s with
  | nil => exact h
  | cons c cs ih =>
      simp only [runCalls]
      exact ih _ (Reachable.step c.1 c.2 h)

/-- Every successful result of a run equals the slot of the final state. -/
lemma run_ok_eq_final_slot (cs : List ((Args → Bool) × Args)) (s : PyState)
    (v : PyVal) (h : Except.ok v ∈ (runCalls s cs).2) :
    v = (runCalls s cs).1.instanceSlot := by
  induction cs generalizing s with
  | nil => cases h
  | cons c cs ih =>
      simp only [runCalls, List.mem_cons] at h
      rcases h with h | h
      · obtain ⟨hv, k, hk⟩ := ok_eq_post_slot c.1 c.2 s v h.symm
        simp only [runCalls]
        rw [slot_obj_run cs _ k (by rw [← hv, hk])]
        exact hk
      · exact ih _ h

/-- A single call changes the slot exactly when it completes a
construction, and a construction appends exactly one log entry. -/
lemma step_write_eq_construction (c : Args → Bool) (a : Args) (s : PyState) :
    (if (Singleton.new c a s).1.instanceSlot = s.instanceSlot then 0 else 1)
        + s.constructions.length
      = (Singleton.new c a s).1.constructions.length := by
  cases hs : s.instanceSlot with
  | none =>
      cases hc : c a with
      | true => rw [new_of_none_fail c a s hs hc]; simp [hs]
      | false => rw [new_of_none_ok c a s hs hc]; simp [hs, Nat.add_comm]
  | obj i => simp [Singleton.new, hs, truthy]

/-- Slot writes along a run count exactly the constructions completed
during the run. -/
lemma slotWrites_eq_constructions (cs : List ((Args → Bool) × Args)) (s : PyState) :
    slotWrites s cs + s.constructions.length
      = (runCalls s cs).1.constructions.length := by
  induction cs generalizing s with
  | nil => simp [slotWrites, runCalls]
  | cons c cs ih =>
      simp only [slotWrites, runCalls]
      rw [← ih ((Singleton.new c.1 c.2 s).1), ← step_write_eq_construction c.1 c.2 s]
      omega

/-- A call that does not write the slot changes nothing at all. -/
lemma step_no_write_frame (c : Args → Bool) (a : Args) (s : PyState)
    (h : (Singleton.new c a s).1.instanceSlot = s.instanceSlot) :
    (Singleton.new c a s).1 = s := by
  cases hs : s.instanceSlot with
  | none =>
      cases hc : c a with
      | true => rw [new_of_none_fail c a s hs hc]
      | false =>
          rw [new_of_none_ok c a s hs hc] at h
          rw [hs] at h
          exact PyVal.noConfusion h
  | obj i => rw [new_of_truthy c a s (by rw [hs]; rfl)]

/-- Evaluation of the module body under a constructor that completes on
the no-argument call: the first statement constructs object `0`, the
second returns it again, and `True` is printed. -/
lemma moduleDemo_eq (ctorFails : Args → Bool) (h : ctorFails [] = false) :
    moduleDemo ctorFails =
      ({ instanceSlot := PyVal.obj 0, nextId := 1, constructions := [[]] },
       Except.ok (PyVal.obj 0, PyVal.obj 0, true)) := by
  simp [moduleDemo, Singleton.new, initState, truthy, h, pyIs]

/-! ## Claims -/

/-- C1: Identity guarantee: along any sequence of calls to `Singleton()`
within one process lifetime (any schedule of constructor behaviours and
arguments, starting from the fresh state), any two references returned by
calls that complete are identical, regardless of the arguments passed to
calls after the first. -/
theorem singleton_identity (cs : List ((Args → Bool) × Args)) (v1 v2 : PyVal)
    (h1 : Except.ok v1 ∈ (runCalls initState cs).2)
    (h2 : Except.ok v2 ∈ (runCalls initState cs).2) :
    v1 = v2 := by
  rw [run_ok_eq_final_slot cs initState v1 h1,
    run_ok_eq_final_slot cs initState v2 h2]

/-- Witness for C1 on the concrete two-call schedule: both calls return
object `0` and the theorem identifies the two returned references. -/
theorem singleton_identity_witness :
    Except.ok (PyVal.obj 0) ∈ (runCalls initState demoCalls).2 ∧
      PyVal.obj 0 = PyVal.obj 0 :=
  ⟨by decide,
   singleton_identity demoCalls (PyVal.obj 0) (PyVal.obj 0) (by decide) (by decide)⟩

/-- C2: Single construction: however many calls `Singleton()` are made,
at most one `super().__new__` call ever completes within the process. -/
theorem singleton_single_construction (cs : List ((Args → Bool) × Args)) :
    (runCalls initState cs).1.constructions.length ≤ 1 := by
  rcases reachable_invariant _ (reachable_run cs initState Reachable.init) with
    ⟨_, hl⟩ | ⟨i, a, _, hl⟩ <;> simp [hl]

/-- C3: End-to-end demonstration: with the no-argument constructor
completing, the module body's two calls return references `r1` and `r2`
with `r1 is r2` evaluating to `true`, and that boolean `true` is what the
demonstration prints. -/
theorem singleton_demo_prints_true (ctorFails : Args → Bool)
    (h : ctorFails [] = false) :
    ∃ r1 r2, (moduleDemo ctorFails).2 = Except.ok (r1, r2, pyIs r1 r2) ∧
      r1 = r2 ∧ pyIs r1 r2 = true := by
  rw [moduleDemo_eq ctorFails h]
  exact ⟨PyVal.obj 0, PyVal.obj 0, rfl, rfl, rfl⟩

/-- Witness for C3 with the never-raising constructor. -/
theorem singleton_demo_prints_true_witness :
    ∃ r1 r2, (moduleDemo (fun _ => false)).2 = Except.ok (r1, r2, pyIs r1 r2) ∧
      r1 = r2 ∧ pyIs r1 r2 = true :=
  singleton_demo_prints_true (fun _ => false) rfl

/-- C4: Slot invariant and one-directional state machine: in every
reachable state the `_instance` slot is either `None` or holds exactly one
object, and once it holds an object it holds that same object after any
further sequence of calls, never a different object and never `None`
again. -/
theorem singleton_slot_state_machine (s : PyState) (_h : Reachable s) :
    (s.instanceSlot = PyVal.none ∨ ∃ i, s.instanceSlot = PyVal.obj i) ∧
      ∀ i, s.instanceSlot = PyVal.obj i →
        ∀ cs, (runCalls s cs).1.instanceSlot = PyVal.obj i := by
  refine ⟨?_, fun i hi cs => slot_obj_run cs s i hi⟩
  cases hs : s.instanceSlot with
  | none => exact Or.inl rfl
  | obj i => exact Or.inr ⟨i, rfl⟩

/-- Witness for C4 at the reachable state after one successful call: the
slot keeps holding object `0` across a further two-call schedule. -/
theorem singleton_slot_state_machine_witness :
    (runCalls demoState1 demoCalls).1.instanceSlot = PyVal.obj 0 :=
  (singleton_slot_state_machine demoState1
      (Reachable.step (fun _ => false) [] Reachable.init)).2 0 rfl demoCalls

/-- C5: Argument acceptance and irrelevance: calling `Singleton(args1)` on
the fresh state and then `Singleton(args2)` with different arguments
returns the same reference twice; the object was constructed from `args1`
only, and the second call changes nothing. -/
theorem singleton_argument_irrelevance (c1 c2 : Args → Bool)
    (args1 args2 : Args) (_hne : args1 ≠ args2) (h1 : c1 args1 = false) :
    ∃ v, (Singleton.new c1 args1 initState).2 = Except.ok v ∧
      (Singleton.new c2 args2 (Singleton.new c1 args1 initState).1).2 =
        Except.ok v ∧
      (Singleton.new c2 args2 (Singleton.new c1 args1 initState).1).1 =
        (Singleton.new c1 args1 initState).1 ∧
      (Singleton.new c2 args2 (Singleton.new c1 args1 initState).1).1.constructions =
        [args1] := by
  have e1 := new_of_none_ok c1 args1 initState rfl h1
  have ht : truthy (Singleton.new c1 args1 initState).1.instanceSlot = true := by
    rw [e1]; rfl
  have e2 := new_of_truthy c2 args2 (Singleton.new c1 args1 initState).1 ht
  refine ⟨PyVal.obj initState.nextId, ?_, ?_, ?_, ?_⟩
  · rw [e1]
  · rw [e2, e1]
  · rw [e2]
  · rw [e2, e1]; rfl

/-- Witness for C5 with first call taking no arguments and second call
passing the argument `1`. -/
theorem singleton_argument_irrelevance_witness :
    ∃ v, (Singleton.new (fun _ => false) [] initState).2 = Except.ok v ∧
      (Singleton.new (fun _ => false) [1]
          (Singleton.new (fun _ => false) [] initState).1).2 = Except.ok v ∧
      (Singleton.new (fun _ => false) [1]
          (Singleton.new (fun _ => false) [] initState).1).1 =
        (Singleton.new (fun _ => false) [] initState).1 ∧
      (Singleton.new (fun _ => false) [1]
          (Singleton.new (fun _ => false) [] initState).1).1.constructions =
        [[]] :=
  singleton_argument_irrelevance (fun _ => false) (fun _ => false) [] [1]
    (by decide) rfl

/-- C6: Error propagation with non-sticky failure: when the slot is `None`
and the underlying constructor raises, the call returns the error with the
state unchanged, and a later call whose constructor completes succeeds in
constructing the instance. -/
theorem singleton_error_retry (c : Args → Bool) (args : Args) (s : PyState)
    (hs : s.instanceSlot = PyVal.none) (hc : c args = true) :
    Singleton.new c args s = (s, Except.error PyErr.typeError) ∧
      ∀ c2 args2, c2 args2 = false →
        (Singleton.new c2 args2 (Singleton.new c args s).1).2 =
          Except.ok (PyVal.obj s.nextId) := by
  refine ⟨new_of_none_fail c args s hs hc, fun c2 args2 h2 => ?_⟩
  rw [new_of_none_fail c args s hs hc]
  rw [new_of_none_ok c2 args2 s hs h2]

/-- Witness for C6: a first call whose constructor raises leaves the fresh
state intact, and a retry constructs object `0`. -/
theorem singleton_error_retry_witness :
    Singleton.new (fun _ => true) [] initState =
        (initState, Except.error PyErr.typeError) ∧
      (Singleton.new (fun _ => false) []
          (Singleton.new (fun _ => true) [] initState).1).2 =
        Except.ok (PyVal.obj 0) :=
  ⟨(singleton_error_retry (fun _ => true) [] initState rfl rfl).1,
   (singleton_error_retry (fun _ => true) [] initState rfl rfl).2
     (fun _ => false) [] rfl⟩

/-- C7: Algorithm steps: when the slot is absent and the constructor
completes, the call constructs a fresh object from the supplied arguments
and stores it in the slot; when the slot is already truthy the call leaves
everything unchanged; and every completed call returns exactly the
reference held in the slot after the call. -/
theorem singleton_algorithm_steps (c : Args → Bool) (args : Args) (s : PyState) :
    (s.instanceSlot = PyVal.none → c args = false →
        (Singleton.new c args s).1.instanceSlot = PyVal.obj s.nextId ∧
          (Singleton.new c args s).1.constructions = s.constructions ++ [args] ∧
          (Singleton.new c args s).2 = Except.ok (PyVal.obj s.nextId)) ∧
      (truthy s.instanceSlot = true →
        Singleton.new c args s = (s, Except.ok s.instanceSlot)) ∧
      ∀ v, (Singleton.new c args s).2 = Except.ok v →
        v = (Singleton.new c args s).1.instanceSlot := by
  refine ⟨fun hs hc => ?_, fun ht => new_of_truthy c args s ht,
    fun v hv => (ok_eq_post_slot c args s v hv).1⟩
  rw [new_of_none_ok c args s hs hc]
  exact ⟨rfl, rfl, rfl⟩

/-- Witness for C7: a first call with argument list `[5]` constructs
object `0`, logs the construction with those arguments and returns the
new reference. -/
theorem singleton_algorithm_steps_witness :
    (Singleton.new (fun _ => false) [5] initState).1.instanceSlot = PyVal.obj 0 ∧
      (Singleton.new (fun _ => false) [5] initState).1.constructions = [[5]] ∧
      (Singleton.new (fun _ => false) [5] initState).2 =
        Except.ok (PyVal.obj 0) :=
  (singleton_algorithm_steps (fun _ => false) [5] initState).1 rfl rfl

/-- C8: Frame property: across any whole run from the fresh state the
slot is written exactly as many times as constructions complete, hence at
most once; and any single call that does not write the slot leaves the
entire state unchanged. -/
theorem singleton_frame (cs : List ((Args → Bool) × Args)) :
    slotWrites initState cs = (runCalls initState cs).1.constructions.length ∧
      slotWrites initState cs ≤ 1 ∧
      ∀ c args s, (Singleton.new c args s).1.instanceSlot = s.instanceSlot →
        (Singleton.new c args s).1 = s := by
  have hw : slotWrites initState cs
      = (runCalls initState cs).1.constructions.length := by
    have h0 := slotWrites_eq_constructions cs initState
    simpa [initState] using h0
  refine ⟨hw, ?_, fun c args s h => step_no_write_frame c args s h⟩
  rw [hw]
  rcases reachable_invariant _ (reachable_run cs initState Reachable.init) with
    ⟨_, hl⟩ | ⟨i, a, _, hl⟩ <;> simp [hl]

/-- Witness for C8: the second call on the already-initialized state
writes nothing and leaves the state exactly as it was. -/
theorem singleton_frame_witness :
    (Singleton.new (fun _ => false) [] demoState1).1 = demoState1 :=
  (singleton_frame []).2.2 (fun _ => false) [] demoState1 rfl

/-- C9: Truthiness guard: the `not cls._instance` test fails exactly on
`None`, every stored `Singleton` instance is truthy, and therefore in
every reachable state in which a construction has completed the slot is
truthy and the construction branch can no longer be taken. -/
theorem singleton_truthiness_guard :
    (∀ v : PyVal, truthy v = false ↔ v = PyVal.none) ∧
      (∀ i, truthy (PyVal.obj i) = true) ∧
      ∀ s, Reachable s → s.constructions ≠ [] → truthy s.instanceSlot = true := by
  refine ⟨truthy_eq_false_iff, fun i => rfl, fun s hr hne => ?_⟩
  rcases reachable_invariant s hr with ⟨_, hl⟩ | ⟨i, a, hs, _⟩
  · exact absurd hl hne
  · rw [hs]; rfl

/-- Witness for C9 at the state after one successful construction: the
slot is truthy there. -/
theorem singleton_truthiness_guard_witness :
    truthy demoState1.instanceSlot = true :=
  singleton_truthiness_guard.2.2 demoState1
    (Reachable.step (fun _ => false) [] Reachable.init) (by decide)

/-- C10: Module-level initialization: executing the module body performs
the two construction calls and the print, so afterwards the slot holds
the object constructed by the first statement (object `0`), exactly one
construction has happened, `True` was printed, and every later run of
calls still observes the slot populated with that same object. -/
theorem singleton_module_init (ctorFails : Args → Bool)
    (h : ctorFails [] = false) :
    (moduleDemo ctorFails).1.instanceSlot = PyVal.obj 0 ∧
      (moduleDemo ctorFails).1.constructions = [[]] ∧
      (moduleDemo ctorFails).2 = Except.ok (PyVal.obj 0, PyVal.obj 0, true) ∧
      ∀ cs, (runCalls (moduleDemo ctorFails).1 cs).1.instanceSlot = PyVal.obj 0 := by
  rw [moduleDemo_eq ctorFails h]
  exact ⟨rfl, rfl, rfl, fun cs => slot_obj_run cs _ 0 rfl⟩

/-- Witness for C10 with the never-raising constructor and the concrete
two-call follow-up schedule. -/
theorem singleton_module_init_witness :
    (moduleDemo (fun _ => false)).1.instanceSlot = PyVal.obj 0 ∧
      (moduleDemo (fun _ => false)).1.constructions = [[]] ∧
      (moduleDemo (fun _ => false)).2 =
        Except.ok (PyVal.obj 0, PyVal.obj 0, true) ∧
      (runCalls (moduleDemo (fun _ => false)).1 demoCalls).1.instanceSlot =
        PyVal.obj 0 :=
  have t := singleton_module_init (fun _ => false) rfl
  ⟨t.1, t.2.1, t.2.2.1, t.2.2.2 demoCalls⟩
